import Mathlib

/-!
Verification development for the quota-aware streaming response pipeline,
the Postgres-backed conversation cache and the stream event encoder.

The definitions below are a shallow embedding of the Python sources
`ols/app/endpoints/streaming_ols.py`, `ols/src/cache/postgres_cache.py`
and `ols/src/quota/quota_limiter.py`.  Machine behaviour that lives in
external collaborators (helpers imported from `ols.app.endpoints.ols`,
model classes) is modelled from the specification and marked as such in
the corresponding doc comments.
-/

namespace OLS

/-! ## JSON values and Python-style serialization (`json.dumps`) -/

/-- JSON values, as produced by the Python dictionaries handed to
`json.dumps` in `format_stream_data`. -/
inductive JValue where
  | str (s : String)
  | int (n : Int)
  | bool (b : Bool)
  | null
  | arr (xs : List JValue)
  | obj (kvs : List (String × JValue))

/-- One hexadecimal digit, lower case, as Python prints in escape
sequences. -/
def hexDigit (n : Nat) : Char :=
  if n < 10 then Char.ofNat (48 + n) else Char.ofNat (87 + n)

/-- Four-digit lower-case hexadecimal rendering of a code point, as in a
Python json escape sequence. -/
def toHex4 (n : Nat) : String :=
  String.mk [hexDigit (n / 4096 % 16), hexDigit (n / 256 % 16),
             hexDigit (n / 16 % 16), hexDigit (n % 16)]

/-- Escape one character the way `json.dumps` does with its default
`ensure_ascii=True`: printable ASCII other than quote and backslash is
kept, the common control characters use their two-character escapes, and
everything else becomes a `u` escape (a surrogate pair beyond the basic
plane). -/
def escapeChar (c : Char) : String :=
  if c = '"' then "\\\""
  else if c = '\\' then "\\\\"
  else if c = '\n' then "\\n"
  else if c = '\r' then "\\r"
  else if c = '\t' then "\\t"
  else if c = Char.ofNat 8 then "\\b"
  else if c = Char.ofNat 12 then "\\f"
  else if 32 ≤ c.toNat ∧ c.toNat ≤ 126 then String.singleton c
  else if c.toNat < 65536 then "\\u" ++ toHex4 c.toNat
  else
    "\\u" ++ toHex4 (55296 + (c.toNat - 65536) / 1024)
      ++ "\\u" ++ toHex4 (56320 + (c.toNat - 65536) % 1024)

/-- Escape a whole string for a JSON string literal. -/
def escapeString (s : String) : String :=
  String.join (s.data.map escapeChar)

/-- A JSON string literal as printed by `json.dumps`. -/
def jstr (s : String) : String :=
  "\"" ++ escapeString s ++ "\""

mutual

/-- `json.dumps` with Python's default separators: items joined by a
comma and a space, keys and values joined by a colon and a space. -/
def jsonDumps : JValue → String
  | .str s => jstr s
  | .int n => toString n
  | .bool b => if b then "true" else "false"
  | .null => "null"
  | .arr xs => "[" ++ dumpsArr xs ++ "]"
  | .obj kvs => "\x7b" ++ dumpsObj kvs ++ "\x7d"

/-- Comma-separated rendering of a JSON array body. -/
def dumpsArr : List JValue → String
  | [] => ""
  | [x] => jsonDumps x
  | x :: y :: xs => jsonDumps x ++ ", " ++ dumpsArr (y :: xs)

/-- Comma-separated rendering of a JSON object body. -/
def dumpsObj : List (String × JValue) → String
  | [] => ""
  | [(k, v)] => jstr k ++ ": " ++ jsonDumps v
  | (k, v) :: p :: xs => jstr k ++ ": " ++ jsonDumps v ++ ", " ++ dumpsObj (p :: xs)

end

/-! ## Data model -/

/-- Modelled from the spec: the two recognized media types of the
encoder, a plain-text mode and a structured (JSON) mode.  The source
compares the request's media type against `constants.MEDIA_TYPE_TEXT`
and `constants.MEDIA_TYPE_JSON`; only their distinctness matters here. -/
def MEDIA_TYPE_TEXT : String := "text/plain"

/-- Modelled from the spec: the structured (JSON) media type, see
`MEDIA_TYPE_TEXT`. -/
def MEDIA_TYPE_JSON : String := "application/json"

/-- Value object tracking cumulative input and output token counts for
one streamed answer (`TokenCounter` in `ols.app.models.models`). -/
structure TokenCounter where
  input_tokens : Nat
  output_tokens : Nat
  deriving Repr, DecidableEq

/-- A retrieved document reference used to ground an answer
(`RagChunk` in `ols.app.models.models`). -/
structure RagChunk where
  doc_title : String
  doc_url : String
  text : String
  deriving Repr, DecidableEq

/-- The terminal structured result of a generation stream
(`SummarizerResponse` in `ols.app.models.models`), carrying RAG chunks,
the history-truncation flag and the token counter. -/
structure SummarizerResponse where
  rag_chunks : List RagChunk
  history_truncated : Bool
  token_counter : Option TokenCounter
  deriving Repr, DecidableEq

/-- A referenced document as rendered for clients: the dictionaries with
keys `doc_title` and `doc_url` that `build_referenced_docs` produces. -/
structure RefDoc where
  doc_title : String
  doc_url : String
  deriving Repr, DecidableEq

/-- Modelled from the spec: `calc_input_tokens` lives in
`ols.app.endpoints.ols` (outside the sampled sources); the End event
carries the counter's input token count, zero when no counter exists. -/
def calc_input_tokens : Option TokenCounter → Nat
  | some tc => tc.input_tokens
  | none => 0

/-- Modelled from the spec: `calc_output_tokens` lives in
`ols.app.endpoints.ols` (outside the sampled sources); the End event
carries the counter's output token count, zero when no counter exists. -/
def calc_output_tokens : Option TokenCounter → Nat
  | some tc => tc.output_tokens
  | none => 0

/-- Keep the first occurrence of every element, dropping later
duplicates. -/
def dedupFirst : List RefDoc → List RefDoc
  | [] => []
  | d :: ds => d :: (dedupFirst ds).filter (fun e => e ≠ d)

/-- Modelled from the spec: `build_referenced_docs` lives in
`ols.app.endpoints.ols` (outside the sampled sources); it renders the
RAG chunks as an ordered sequence of deduplicated
`(doc_title, doc_url)` records. -/
def build_referenced_docs (rag_chunks : List RagChunk) : List RefDoc :=
  dedupFirst (rag_chunks.map fun c => ⟨c.doc_title, c.doc_url⟩)

/-! ## Stream event encoder (`streaming_ols.py`) -/

/-- `format_stream_data`: format outbound data in the Event Stream
Format, `"data: "` followed by the JSON serialization followed by a
blank line. -/
def format_stream_data (d : JValue) : String :=
  "data: " ++ jsonDumps d ++ "\n\n"

/-- `stream_start_event`: the start frame of the structured stream. -/
def stream_start_event (conversation_id : String) : String :=
  format_stream_data (.obj
    [("event", .str "start"),
     ("data", .obj [("conversation_id", .str conversation_id)])])

/-- The JSON rendering of the referenced-documents list inside the End
frame. -/
def refDocsJson (ref_docs : List RefDoc) : JValue :=
  .arr (ref_docs.map fun d =>
    .obj [("doc_title", .str d.doc_title), ("doc_url", .str d.doc_url)])

/-- The JSON rendering of the per-ledger available-quota mapping. -/
def quotasJson (available_quotas : List (String × Int)) : JValue :=
  .obj (available_quotas.map fun kv => (kv.1, .int kv.2))

/-- `stream_end_event`: the terminal frame of a successful stream.  In
structured mode an `end` frame with referenced documents, truncation
flag and token counts plus the available quotas; in text mode a
separator followed by a newline-joined `title: url` list, or the empty
string when that list renders empty. -/
def stream_end_event (ref_docs : List RefDoc) (truncated : Bool)
    (media_type : String) (token_counter : Option TokenCounter)
    (available_quotas : List (String × Int)) : String :=
  if media_type = MEDIA_TYPE_JSON then
    format_stream_data (.obj
      [("event", .str "end"),
       ("data", .obj
         [("referenced_documents", refDocsJson ref_docs),
          ("truncated", .bool truncated),
          ("input_tokens", .int (calc_input_tokens token_counter)),
          ("output_tokens", .int (calc_output_tokens token_counter))]),
       ("available_quotas", quotasJson available_quotas)])
  else
    let ref_docs_string :=
      String.intercalate "\n"
        (ref_docs.map fun item => item.doc_title ++ ": " ++ item.doc_url)
    if ref_docs_string ≠ "" then "\n\n---\n\n" ++ ref_docs_string else ""

/-- `prompt_too_long_error`: the error representation for long prompts;
`error` is the string rendering of the raised `PromptTooLongError`. -/
def prompt_too_long_error (error : String) (media_type : String) : String :=
  if media_type = MEDIA_TYPE_TEXT then
    "Prompt is too long: " ++ error
  else
    format_stream_data (.obj
      [("event", .str "error"),
       ("data", .obj
         [("status_code", .int 413),
          ("response", .str "Prompt is too long"),
          ("cause", .str error)])])

/-- `generic_llm_error`: the error representation for generic LLM
errors.  The source first classifies the exception through the external
collaborator `parse_generic_llm_error` into `(kind, response, cause)`;
here the already-classified `response` and `cause` are taken as inputs. -/
def generic_llm_error (response cause : String) (media_type : String) : String :=
  if media_type = MEDIA_TYPE_TEXT then
    response ++ ": " ++ cause
  else
    format_stream_data (.obj
      [("event", .str "error"),
       ("data", .obj [("response", .str response), ("cause", .str cause)])])

/-- `build_yield_item`: in text mode the raw fragment, otherwise a
`token` frame carrying the index and the fragment. -/
def build_yield_item (item : String) (idx : Nat) (media_type : String) : String :=
  if media_type = MEDIA_TYPE_TEXT then
    item
  else
    format_stream_data (.obj
      [("event", .str "token"),
       ("data", .obj [("id", .int idx), ("token", .str item)])])

/-! ## Response processing pipeline (`streaming_ols.py`) -/

/-- One item produced by the summarizer's async generator: either a
plain text fragment or the terminal `SummarizerResponse`. -/
inductive GenItem where
  | fragment (s : String)
  | summary (sr : SummarizerResponse)
  deriving Repr, DecidableEq

/-- How the generator behaves once all of its listed items have been
pulled: normal exhaustion, a `PromptTooLongError` (rendered as its
string), or any other exception (already classified by the external
collaborator `parse_generic_llm_error` into response and cause). -/
inductive GenEnd where
  | exhausted
  | promptTooLong (error : String)
  | genericError (response cause : String)
  deriving Repr, DecidableEq

/-- A trace of the summarizer's generator: the items it yields in order,
then its end behaviour. -/
structure GenTrace where
  items : List GenItem
  outcome : GenEnd
  deriving Repr, DecidableEq

/-- Modelled from the spec: the canned single-fragment response for
invalid queries (`ols.customize.prompts.INVALID_QUERY_RESP`, outside the
sampled sources); its exact text is irrelevant here. -/
def INVALID_QUERY_RESP : String :=
  "I can only answer questions about the supported product."

/-- `invalid_response_generator`: yields the invalid-query response as
one plain fragment and then is exhausted, with no terminal
`SummarizerResponse`. -/
def invalid_response_generator : GenTrace :=
  ⟨[.fragment INVALID_QUERY_RESP], .exhausted⟩

/-- One observable step of the pipeline: a string yielded to the client,
or a call into a collaborator (conversation-cache persistence,
transcript persistence, quota consumption, quota aggregation). -/
inductive Step where
  | yieldOut (s : String)
  | callStoreConversationHistory (user_id conversation_id response : String)
      (rag_chunks : List RagChunk)
  | callStoreTranscript (user_id conversation_id : String) (valid : Bool)
      (response : String) (rag_chunks : List RagChunk) (history_truncated : Bool)
  | callConsumeTokens (ledger : String) (input_tokens output_tokens : Nat)
  | callGetAvailableQuotas (user_id : String)
  deriving Repr, DecidableEq

/-- The strings yielded to the client along a step trace, in order. -/
def yields (steps : List Step) : List String :=
  steps.filterMap fun s =>
    match s with
    | .yieldOut x => some x
    | _ => none

/-- `store_data`: store conversation history, and the transcript when
transcript collection is enabled.  The two persistence collaborators are
external; the steps record the calls with the arguments the pipeline
passes. -/
def store_data (user_id conversation_id response : String)
    (valid : Bool) (rag_chunks : List RagChunk) (history_truncated : Bool)
    (transcripts_disabled : Bool) : List Step :=
  [.callStoreConversationHistory user_id conversation_id response rag_chunks] ++
    (if transcripts_disabled then []
     else [.callStoreTranscript user_id conversation_id valid response
             rag_chunks history_truncated])

/-- Modelled from the spec: each configured quota ledger's
`consume_tokens` atomically decrements its allowance by
`input_tokens + output_tokens`, clamped at zero. -/
def ledgerConsume (input_tokens output_tokens : Nat)
    (ledgers : List (String × Int)) : List (String × Int) :=
  ledgers.map fun kv => (kv.1, max 0 (kv.2 - (input_tokens + output_tokens)))

/-- Modelled from the spec: the helper `consume_tokens` of
`ols.app.endpoints.ols` (outside the sampled sources) calls
`consume_tokens` on every configured quota ledger with the final token
counts.  Returns the recorded calls and the updated ledger states. -/
def consume_tokens (quota_limiters : List (String × Int))
    (input_tokens output_tokens : Nat) : List Step × List (String × Int) :=
  (quota_limiters.map fun kv => .callConsumeTokens kv.1 input_tokens output_tokens,
   ledgerConsume input_tokens output_tokens quota_limiters)

/-- Modelled from the spec: `get_available_quotas` of
`ols.app.endpoints.ols` (outside the sampled sources) aggregates every
configured ledger's remaining allowance into a name-to-amount mapping,
without mutating state. -/
def get_available_quotas (quota_limiters : List (String × Int)) :
    List (String × Int) :=
  quota_limiters

/-- The request-level context the wrapper closes over: identities, media
type, the configured quota ledgers with their current allowances, the
query's validity flag and the transcript-collection switch. -/
structure PipelineCtx where
  user_id : String
  conversation_id : String
  media_type : String
  quota_limiters : List (String × Int)
  valid : Bool
  transcripts_disabled : Bool

/-- How the streaming loop of `response_processing_wrapper` ends:
completion of the `async for` (with the accumulated response and the
terminal `SummarizerResponse` when one arrived), or an error already
yielded to the client. -/
inductive LoopExit where
  | completed (response : String) (final : Option SummarizerResponse)
  | failed
  deriving Repr, DecidableEq

/-- The `try`-guarded `async for` loop of `response_processing_wrapper`:
a terminal `SummarizerResponse` breaks the loop; every other item is
appended to the running response and yielded as a token with the next
index; an exception from the generator yields exactly one error
representation and fails the request. -/
def streamLoop (media_type : String) :
    List GenItem → GenEnd → Nat → String → List Step × LoopExit
  | [], .exhausted, _, response => ([], .completed response none)
  | [], .promptTooLong e, _, _ =>
      ([.yieldOut (prompt_too_long_error e media_type)], .failed)
  | [], .genericError r c, _, _ =>
      ([.yieldOut (generic_llm_error r c media_type)], .failed)
  | .summary sr :: _, _, _, response => ([], .completed response (some sr))
  | .fragment s :: rest, oc, idx, response =>
      let next := streamLoop media_type rest oc (idx + 1) (response ++ s)
      (.yieldOut (build_yield_item s idx media_type) :: next.1, next.2)

/-- `response_processing_wrapper`: emit the start frame in structured
mode, run the streaming loop, and on successful completion persist the
turn, meter quota on every ledger, gather the available quotas and emit
exactly one End event; on failure stop right after the single error
yield. -/
def response_processing_wrapper (ctx : PipelineCtx) (g : GenTrace) : List Step :=
  let startSteps : List Step :=
    if ctx.media_type = MEDIA_TYPE_JSON then
      [.yieldOut (stream_start_event ctx.conversation_id)]
    else []
  let loop := streamLoop ctx.media_type g.items g.outcome 0 ""
  match loop.2 with
  | .failed => startSteps ++ loop.1
  | .completed response final =>
    let rag_chunks := match final with
      | some sr => sr.rag_chunks
      | none => []
    let history_truncated := match final with
      | some sr => sr.history_truncated
      | none => false
    let token_counter := match final with
      | some sr => sr.token_counter
      | none => none
    let input_tokens := calc_input_tokens token_counter
    let output_tokens := calc_output_tokens token_counter
    let consumed := consume_tokens ctx.quota_limiters input_tokens output_tokens
    let available_quotas := get_available_quotas consumed.2
    startSteps ++ loop.1
      ++ store_data ctx.user_id ctx.conversation_id response ctx.valid
           rag_chunks history_truncated ctx.transcripts_disabled
      ++ consumed.1
      ++ [.callGetAvailableQuotas ctx.user_id]
      ++ [.yieldOut (stream_end_event (build_referenced_docs rag_chunks)
            history_truncated ctx.media_type token_counter available_quotas)]

/-! ## Conversation cache store (`postgres_cache.py`) -/

/-- One persisted conversation turn (`CacheEntry` in
`ols.app.models.models`, outside the sampled sources; modelled from the
spec's ConversationTurn as a query/response exchange).  The cache treats
it as an opaque serialized record. -/
structure CacheEntry where
  query : String
  response : String
  deriving Repr, DecidableEq

/-- One row of the `cache` table: primary key
`(user_id, conversation_id)`, the serialized ordered turn list, and the
last-write timestamp used for eviction ordering. -/
structure CacheRow where
  user_id : String
  conversation_id : String
  value : List CacheEntry
  updated_at : Nat
  deriving Repr, DecidableEq

/-- The state of the `cache` table. -/
structure CacheState where
  rows : List CacheRow
  deriving Repr, DecidableEq

/-- The primary key of a row. -/
def keyOf (r : CacheRow) : String × String := (r.user_id, r.conversation_id)

/-- The rows of the table carry pairwise distinct primary keys — the
`PRIMARY KEY(user_id, conversation_id)` constraint of the schema. -/
def KeysNodup (st : CacheState) : Prop :=
  (st.rows.map keyOf).Nodup

instance (st : CacheState) : Decidable (KeysNodup st) := by
  unfold KeysNodup; infer_instance

/-- `SELECT value FROM cache WHERE user_id=.. AND conversation_id=..
LIMIT 1`, already deserialized. -/
def lookupHistory (st : CacheState) (user_id conversation_id : String) :
    Option (List CacheEntry) :=
  (st.rows.find? fun r =>
    r.user_id = user_id ∧ r.conversation_id = conversation_id).map
    fun r => r.value

/-- `UPDATE cache SET value=.., updated_at=CURRENT_TIMESTAMP WHERE
user_id=.. AND conversation_id=..`. -/
def updateRow (st : CacheState) (user_id conversation_id : String)
    (value : List CacheEntry) (now : Nat) : CacheState :=
  ⟨st.rows.map fun r =>
    if r.user_id = user_id ∧ r.conversation_id = conversation_id then
      { r with value := value, updated_at := now }
    else r⟩

/-- `INSERT INTO cache(user_id, conversation_id, value, updated_at)
VALUES (.., .., .., CURRENT_TIMESTAMP)`. -/
def insertRow (st : CacheState) (user_id conversation_id : String)
    (value : List CacheEntry) (now : Nat) : CacheState :=
  ⟨st.rows ++ [⟨user_id, conversation_id, value, now⟩]⟩

/-- The rows sorted by ascending `updated_at` (the `ORDER BY updated_at`
of the cleanup statement; rows with equal timestamps come in one of the
orders the database may choose). -/
def sortByTs (rows : List CacheRow) : List CacheRow :=
  rows.insertionSort fun a b => a.updated_at ≤ b.updated_at

/-- `DELETE FROM cache WHERE (user_id, conversation_id) IN (SELECT
user_id, conversation_id FROM cache ORDER BY updated_at LIMIT n)`. -/
def deleteOldest (st : CacheState) (n : Nat) : CacheState :=
  let victims := ((sortByTs st.rows).take n).map keyOf
  ⟨st.rows.filter fun r => decide (keyOf r ∉ victims)⟩

/-- `PostgresCache._cleanup`: read the table size and, when it exceeds
the capacity, delete the `count - capacity` oldest-updated entries. -/
def PostgresCache_cleanup (capacity : Nat) (st : CacheState) : CacheState :=
  let count := st.rows.length
  if count - capacity > 0 then deleteOldest st (count - capacity) else st

/-- A storage-fault scenario: `some (i, msg)` makes the `i`-th SQL
statement executed by the operation raise `psycopg2.DatabaseError` with
message `msg`; `none` is the fault-free run. -/
abbrev DbFault := Option (Nat × String)

/-- Whether the statement with execution index `cnt` raises under the
given fault scenario, and with which message. -/
def stmtFails (fault : DbFault) (cnt : Nat) : Option String :=
  match fault with
  | some (i, msg) => if i = cnt then some msg else none
  | none => none

/-- The observable outcome of a cache operation: a returned value, or a
raised `CacheError(operation, cause)`.  The connection runs with
`autocommit = True`, so the carried state keeps the effects of the
statements that already executed. -/
inductive CacheOutcome (α : Type) where
  | ok (a : α) (st : CacheState)
  | cacheError (op cause : String) (st : CacheState)
  deriving Repr

/-- `PostgresCache.get`: select the history for the key, returning the
deserialized list, the empty list when the key is absent, and wrapping
any `psycopg2.DatabaseError` as
`CacheError("PostgresCache.get", cause)`. -/
def PostgresCache_get (fault : DbFault) (st : CacheState)
    (user_id conversation_id : String) : CacheOutcome (List CacheEntry) :=
  match stmtFails fault 0 with
  | some msg => .cacheError "PostgresCache.get" msg st
  | none =>
    match lookupHistory st user_id conversation_id with
    | some value => .ok value st
    | none => .ok [] st

/-- The message of the integrity error the database raises when an
`INSERT` collides with the primary key. -/
def dupKeyMsg : String := "duplicate key value violates unique constraint"

/-- `PostgresCache.insert_or_append`: select the stored history; when
one is present and non-empty (`if old_value:`), append the entry and
update the row; otherwise insert a fresh single-element history and run
the cleanup (a size query, then a delete when over capacity).  Any
`psycopg2.DatabaseError` is wrapped as
`CacheError("PostgresCache.insert_or_append", cause)`; since the
connection autocommits, statements already executed keep their
effects. -/
def PostgresCache_insert_or_append (fault : DbFault) (capacity : Nat)
    (now : Nat) (st : CacheState) (user_id conversation_id : String)
    (cache_entry : CacheEntry) : CacheOutcome Unit :=
  match stmtFails fault 0 with
  | some msg => .cacheError "PostgresCache.insert_or_append" msg st
  | none =>
    match lookupHistory st user_id conversation_id with
    | some old_value =>
      if old_value ≠ [] then
        match stmtFails fault 1 with
        | some msg => .cacheError "PostgresCache.insert_or_append" msg st
        | none =>
          .ok () (updateRow st user_id conversation_id
            (old_value ++ [cache_entry]) now)
      else
        -- an empty stored list is falsy, so the code takes the insert
        -- path and the primary-key constraint rejects the insert
        match stmtFails fault 1 with
        | some msg => .cacheError "PostgresCache.insert_or_append" msg st
        | none => .cacheError "PostgresCache.insert_or_append" dupKeyMsg st
    | none =>
      match stmtFails fault 1 with
      | some msg => .cacheError "PostgresCache.insert_or_append" msg st
      | none =>
        let st1 := insertRow st user_id conversation_id [cache_entry] now
        match stmtFails fault 2 with
        | some msg => .cacheError "PostgresCache.insert_or_append" msg st1
        | none =>
          let count := st1.rows.length
          if count - capacity > 0 then
            match stmtFails fault 3 with
            | some msg => .cacheError "PostgresCache.insert_or_append" msg st1
            | none => .ok () (deleteOldest st1 (count - capacity))
          else
            .ok () st1

/-! ## Helper definitions for the pipeline theorems -/

/-- The concatenation of a fragment list, the value the running
response buffer holds after all of them were accumulated. -/
def joinFrags : List String → String
  | [] => ""
  | s :: rest => s ++ joinFrags rest

/-- Whether a step is a yield to the client (as opposed to a
collaborator call). -/
def isYield : Step → Bool
  | .yieldOut _ => true
  | _ => false

/-- The single error representation the loop yields for a failing
generator end behaviour; `none` for normal exhaustion. -/
def errorEvent (oc : GenEnd) (media_type : String) : Option String :=
  match oc with
  | .exhausted => none
  | .promptTooLong e => some (prompt_too_long_error e media_type)
  | .genericError r c => some (generic_llm_error r c media_type)

/-- A structured-mode wire frame: the string `data: `, a serialized
JSON object, and a blank-line terminator. -/
def IsJsonFrame (s : String) : Prop :=
  ∃ kvs, s = "data: " ++ jsonDumps (JValue.obj kvs) ++ "\n\n"

/-! ## Pipeline lemmas -/

theorem streamLoop_map_fragment (mt : String) (frs : List String)
    (items : List GenItem) (oc : GenEnd) (idx : Nat) (resp : String) :
    streamLoop mt (frs.map GenItem.fragment ++ items) oc idx resp =
      (((frs.enumFrom idx).map fun p => Step.yieldOut (build_yield_item p.2 p.1 mt))
          ++ (streamLoop mt items oc (idx + frs.length) (resp ++ joinFrags frs)).1,
        (streamLoop mt items oc (idx + frs.length) (resp ++ joinFrags frs)).2) := by
  induction frs generalizing idx resp with
  | nil => simp [joinFrags, String.append_empty]
  | cons s rest ih =>
    simp only [List.map_cons, List.cons_append, streamLoop, List.enumFrom_cons,
      joinFrags, List.length_cons, List.append_eq]
    rw [ih (idx + 1) (resp ++ s)]
    have hn : idx + 1 + rest.length = idx + (rest.length + 1) := by omega
    have hs : resp ++ s ++ joinFrags rest = resp ++ (s ++ joinFrags rest) :=
      String.append_assoc resp s (joinFrags rest)
    rw [hn, hs]

theorem yields_append (a b : List Step) : yields (a ++ b) = yields a ++ yields b :=
  List.filterMap_append a b _

theorem yields_yieldOut_map {α : Type} (f : α → String) (l : List α) :
    yields (l.map fun x => Step.yieldOut (f x)) = l.map f := by
  induction l with
  | nil => rfl
  | cons x xs ih => simp [yields, List.filterMap_cons] at ih ⊢; exact ih

theorem yields_store_data (u c r : String) (v : Bool) (rc : List RagChunk)
    (ht td : Bool) : yields (store_data u c r v rc ht td) = [] := by
  cases td <;> rfl

theorem yields_consume_steps (l : List (String × Int)) (i o : Nat) :
    yields (l.map fun kv => Step.callConsumeTokens kv.1 i o) = [] := by
  induction l with
  | nil => rfl
  | cons x xs ih => simp [yields, List.filterMap_cons] at ih ⊢

theorem wrapper_summary_eq (ctx : PipelineCtx) (frs : List String)
    (sr : SummarizerResponse) (rest : List GenItem) (oc : GenEnd) :
    response_processing_wrapper ctx
        ⟨frs.map GenItem.fragment ++ GenItem.summary sr :: rest, oc⟩ =
      (if ctx.media_type = MEDIA_TYPE_JSON then
        [Step.yieldOut (stream_start_event ctx.conversation_id)] else [])
      ++ ((frs.enumFrom 0).map fun p =>
            Step.yieldOut (build_yield_item p.2 p.1 ctx.media_type))
      ++ store_data ctx.user_id ctx.conversation_id (joinFrags frs) ctx.valid
           sr.rag_chunks sr.history_truncated ctx.transcripts_disabled
      ++ (ctx.quota_limiters.map fun kv => Step.callConsumeTokens kv.1
            (calc_input_tokens sr.token_counter) (calc_output_tokens sr.token_counter))
      ++ [Step.callGetAvailableQuotas ctx.user_id]
      ++ [Step.yieldOut (stream_end_event (build_referenced_docs sr.rag_chunks)
            sr.history_truncated ctx.media_type sr.token_counter
            (get_available_quotas (ledgerConsume (calc_input_tokens sr.token_counter)
              (calc_output_tokens sr.token_counter) ctx.quota_limiters)))] := by
  unfold response_processing_wrapper
  rw [streamLoop_map_fragment]
  simp [streamLoop, consume_tokens, String.empty_append, List.append_assoc]

theorem wrapper_exhausted_eq (ctx : PipelineCtx) (frs : List String) :
    response_processing_wrapper ctx ⟨frs.map GenItem.fragment, .exhausted⟩ =
      (if ctx.media_type = MEDIA_TYPE_JSON then
        [Step.yieldOut (stream_start_event ctx.conversation_id)] else [])
      ++ ((frs.enumFrom 0).map fun p =>
            Step.yieldOut (build_yield_item p.2 p.1 ctx.media_type))
      ++ store_data ctx.user_id ctx.conversation_id (joinFrags frs) ctx.valid
           [] false ctx.transcripts_disabled
      ++ (ctx.quota_limiters.map fun kv => Step.callConsumeTokens kv.1 0 0)
      ++ [Step.callGetAvailableQuotas ctx.user_id]
      ++ [Step.yieldOut (stream_end_event [] false ctx.media_type none
            (get_available_quotas (ledgerConsume 0 0 ctx.quota_limiters)))] := by
  unfold response_processing_wrapper
  have h := streamLoop_map_fragment ctx.media_type frs [] .exhausted 0 ""
  rw [List.append_nil] at h
  rw [h]
  simp [streamLoop, consume_tokens, String.empty_append, List.append_assoc,
    calc_input_tokens, calc_output_tokens, build_referenced_docs, dedupFirst]

theorem wrapper_ptl_eq (ctx : PipelineCtx) (frs : List String) (e : String) :
    response_processing_wrapper ctx ⟨frs.map GenItem.fragment, .promptTooLong e⟩ =
      (if ctx.media_type = MEDIA_TYPE_JSON then
        [Step.yieldOut (stream_start_event ctx.conversation_id)] else [])
      ++ ((frs.enumFrom 0).map fun p =>
            Step.yieldOut (build_yield_item p.2 p.1 ctx.media_type))
      ++ [Step.yieldOut (prompt_too_long_error e ctx.media_type)] := by
  unfold response_processing_wrapper
  have h := streamLoop_map_fragment ctx.media_type frs [] (.promptTooLong e) 0 ""
  rw [List.append_nil] at h
  rw [h]
  simp [streamLoop, List.append_assoc]

theorem wrapper_generic_eq (ctx : PipelineCtx) (frs : List String) (r c : String) :
    response_processing_wrapper ctx ⟨frs.map GenItem.fragment, .genericError r c⟩ =
      (if ctx.media_type = MEDIA_TYPE_JSON then
        [Step.yieldOut (stream_start_event ctx.conversation_id)] else [])
      ++ ((frs.enumFrom 0).map fun p =>
            Step.yieldOut (build_yield_item p.2 p.1 ctx.media_type))
      ++ [Step.yieldOut (generic_llm_error r c ctx.media_type)] := by
  unfold response_processing_wrapper
  have h := streamLoop_map_fragment ctx.media_type frs [] (.genericError r c) 0 ""
  rw [List.append_nil] at h
  rw [h]
  simp [streamLoop, List.append_assoc]


theorem yields_single_yield (s : String) : yields [Step.yieldOut s] = [s] := rfl

theorem yields_single_getQuotas (u : String) :
    yields [Step.callGetAvailableQuotas u] = [] := rfl

/-- C1: for every successful structured-mode stream, the yielded Token
frames carry indices exactly `0..N-1` in order with no gaps or repeats
(the enumeration of the fragments), and the terminal structured result
is never encoded as a Token: the yields are exactly the Start frame, the
enumerated Token frames and one End frame. -/
theorem C1_token_indices (ctx : PipelineCtx) (frs : List String)
    (sr : SummarizerResponse) (rest : List GenItem) (oc : GenEnd)
    (hmt : ctx.media_type = MEDIA_TYPE_JSON) :
    yields (response_processing_wrapper ctx
        ⟨frs.map GenItem.fragment ++ GenItem.summary sr :: rest, oc⟩) =
      stream_start_event ctx.conversation_id ::
        (((frs.enumFrom 0).map fun p => build_yield_item p.2 p.1 ctx.media_type)
          ++ [stream_end_event (build_referenced_docs sr.rag_chunks)
                sr.history_truncated ctx.media_type sr.token_counter
                (get_available_quotas (ledgerConsume (calc_input_tokens sr.token_counter)
                  (calc_output_tokens sr.token_counter) ctx.quota_limiters))])
      ∧ (frs.enumFrom 0).map Prod.fst = List.range frs.length := by
  constructor
  · rw [wrapper_summary_eq]
    rw [hmt]
    simp only [if_pos rfl, yields_append, yields_yieldOut_map, yields_store_data,
      yields_consume_steps, yields_single_yield, yields_single_getQuotas,
      List.nil_append, List.append_nil, List.singleton_append, List.append_assoc]
    rfl
  · exact List.enum_map_fst frs

def isStoreHistory : Step → Bool
  | .callStoreConversationHistory _ _ _ _ => true
  | _ => false

def isConsume : Step → Bool
  | .callConsumeTokens _ _ _ => true
  | _ => false

/-- C3: when the summarizer generator raises during streaming, the
pipeline yields exactly one Error event after the already-delivered
Token events and stops: the step trace is the Start frame (structured
mode only), the Token yields and the single error yield, and it contains
no persistence call, no quota-consumption call and no quota-aggregation
call (every step is a yield). -/
theorem C3_error_single_terminal (ctx : PipelineCtx) (frs : List String)
    (oc : GenEnd) (es : String) (h : errorEvent oc ctx.media_type = some es) :
    response_processing_wrapper ctx ⟨frs.map GenItem.fragment, oc⟩ =
      (if ctx.media_type = MEDIA_TYPE_JSON then
        [Step.yieldOut (stream_start_event ctx.conversation_id)] else [])
      ++ ((frs.enumFrom 0).map fun p =>
            Step.yieldOut (build_yield_item p.2 p.1 ctx.media_type))
      ++ [Step.yieldOut es]
      ∧ ∀ s ∈ response_processing_wrapper ctx ⟨frs.map GenItem.fragment, oc⟩,
          isYield s = true := by
  have hmain : response_processing_wrapper ctx ⟨frs.map GenItem.fragment, oc⟩ =
      (if ctx.media_type = MEDIA_TYPE_JSON then
        [Step.yieldOut (stream_start_event ctx.conversation_id)] else [])
      ++ ((frs.enumFrom 0).map fun p =>
            Step.yieldOut (build_yield_item p.2 p.1 ctx.media_type))
      ++ [Step.yieldOut es] := by
    cases oc with
    | exhausted => simp [errorEvent] at h
    | promptTooLong e =>
      simp only [errorEvent, Option.some.injEq] at h
      subst h
      exact wrapper_ptl_eq ctx frs e
    | genericError r c =>
      simp only [errorEvent, Option.some.injEq] at h
      subst h
      exact wrapper_generic_eq ctx frs r c
  refine ⟨hmain, ?_⟩
  rw [hmain]
  intro s hs
  rcases List.mem_append.mp hs with hab | hes
  · rcases List.mem_append.mp hab with ha | hb
    · by_cases hc : ctx.media_type = MEDIA_TYPE_JSON
      · rw [if_pos hc] at ha
        simp only [List.mem_singleton] at ha
        subst ha; rfl
      · rw [if_neg hc] at ha
        simp at ha
    · rcases List.mem_map.mp hb with ⟨p, _, rfl⟩; rfl
  · simp only [List.mem_singleton] at hes
    subst hes; rfl

theorem countP_comp_false {A B : Type} (p : B → Bool) (f : A → B) (l : List A)
    (h : ∀ a, p (f a) = false) : List.countP (p ∘ f) l = 0 := by
  induction l with
  | nil => rfl
  | cons a l ih => simp [List.countP_cons, h, ih, Function.comp]

theorem countP_comp_true {A B : Type} (p : B → Bool) (f : A → B) (l : List A)
    (h : ∀ a, p (f a) = true) : List.countP (p ∘ f) l = l.length := by
  induction l with
  | nil => rfl
  | cons a l ih => simp [List.countP_cons, h, ih, Function.comp]

/-- C8: on a successfully drained stream, the finalize steps happen in
order and exactly once, all of them after the last Token yield: first
the persistence calls of `store_data`, then one `consume_tokens` call
per configured quota ledger with the final token counts, then the quota
aggregation, and finally exactly one End yield carrying referenced
documents, truncation flag, token counts and per-ledger remaining
quotas.  The persistence call occurs exactly once and the
quota-consumption calls number exactly the configured ledgers. -/
theorem C8_finalize_order (ctx : PipelineCtx) (frs : List String)
    (sr : SummarizerResponse) (rest : List GenItem) (oc : GenEnd) :
    response_processing_wrapper ctx
        ⟨frs.map GenItem.fragment ++ GenItem.summary sr :: rest, oc⟩ =
      ((if ctx.media_type = MEDIA_TYPE_JSON then
        [Step.yieldOut (stream_start_event ctx.conversation_id)] else [])
      ++ (frs.enumFrom 0).map fun p =>
            Step.yieldOut (build_yield_item p.2 p.1 ctx.media_type))
      ++ (store_data ctx.user_id ctx.conversation_id (joinFrags frs) ctx.valid
           sr.rag_chunks sr.history_truncated ctx.transcripts_disabled
      ++ ((ctx.quota_limiters.map fun kv => Step.callConsumeTokens kv.1
            (calc_input_tokens sr.token_counter) (calc_output_tokens sr.token_counter))
      ++ ([Step.callGetAvailableQuotas ctx.user_id]
      ++ [Step.yieldOut (stream_end_event (build_referenced_docs sr.rag_chunks)
            sr.history_truncated ctx.media_type sr.token_counter
            (get_available_quotas (ledgerConsume (calc_input_tokens sr.token_counter)
              (calc_output_tokens sr.token_counter) ctx.quota_limiters)))])))
      ∧ ((response_processing_wrapper ctx
            ⟨frs.map GenItem.fragment ++ GenItem.summary sr :: rest, oc⟩).countP
          isStoreHistory = 1
        ∧ (response_processing_wrapper ctx
            ⟨frs.map GenItem.fragment ++ GenItem.summary sr :: rest, oc⟩).countP
          isConsume = ctx.quota_limiters.length) := by
  have hmain := wrapper_summary_eq ctx frs sr rest oc
  refine ⟨by rw [hmain]; simp [List.append_assoc], ?_, ?_⟩
  · rw [hmain]
    simp only [List.countP_append, List.countP_map, store_data]
    rw [countP_comp_false isStoreHistory
          (fun p => Step.yieldOut (build_yield_item p.2 p.1 ctx.media_type))
          (List.enumFrom 0 frs) (fun p => rfl),
        countP_comp_false isStoreHistory
          (fun kv => Step.callConsumeTokens kv.1 (calc_input_tokens sr.token_counter)
            (calc_output_tokens sr.token_counter))
          ctx.quota_limiters (fun kv => rfl)]
    cases htd : ctx.transcripts_disabled <;>
      split <;>
      simp [isStoreHistory, List.countP_cons, List.countP_nil, List.countP_append]
  · rw [hmain]
    simp only [List.countP_append, List.countP_map, store_data]
    rw [countP_comp_false isConsume
          (fun p => Step.yieldOut (build_yield_item p.2 p.1 ctx.media_type))
          (List.enumFrom 0 frs) (fun p => rfl),
        countP_comp_true isConsume
          (fun kv => Step.callConsumeTokens kv.1 (calc_input_tokens sr.token_counter)
            (calc_output_tokens sr.token_counter))
          ctx.quota_limiters (fun kv => rfl)]
    cases htd : ctx.transcripts_disabled <;>
      split <;>
      simp [isConsume, List.countP_cons, List.countP_nil, List.countP_append]

theorem yields_cons_yield (s : String) (l : List Step) :
    yields (Step.yieldOut s :: l) = s :: yields l := by
  simp [yields, List.filterMap_cons]

/-- C9: when generation fails with an input-too-long condition after
some fragments were delivered, a text-mode client receives those
fragments followed by `Prompt is too long: <cause>`, a structured-mode
client receives the Start frame, the Token frames and one error frame
with status code 413, response `Prompt is too long` and the cause; and
the step trace contains no cache write and no quota-consumption call. -/
theorem C9_prompt_too_long (ctx : PipelineCtx) (frs : List String) (e : String) :
    (ctx.media_type = MEDIA_TYPE_TEXT →
      yields (response_processing_wrapper ctx
          ⟨frs.map GenItem.fragment, .promptTooLong e⟩) =
        frs ++ ["Prompt is too long: " ++ e])
    ∧ (ctx.media_type = MEDIA_TYPE_JSON →
      yields (response_processing_wrapper ctx
          ⟨frs.map GenItem.fragment, .promptTooLong e⟩) =
        stream_start_event ctx.conversation_id ::
          (((frs.enumFrom 0).map fun p => build_yield_item p.2 p.1 ctx.media_type)
            ++ [format_stream_data (.obj
                  [("event", .str "error"),
                   ("data", .obj
                     [("status_code", .int 413),
                      ("response", .str "Prompt is too long"),
                      ("cause", .str e)])])]))
    ∧ ∀ s ∈ response_processing_wrapper ctx
          ⟨frs.map GenItem.fragment, .promptTooLong e⟩,
        isYield s = true := by
  have htj : MEDIA_TYPE_TEXT ≠ MEDIA_TYPE_JSON := by decide
  have hmain := wrapper_ptl_eq ctx frs e
  refine ⟨?_, ?_, ?_⟩
  · intro hmt
    rw [hmain, hmt]
    rw [if_neg htj]
    simp only [List.nil_append, yields_append, yields_yieldOut_map, yields_single_yield]
    have hb : ∀ p : Nat × String,
        build_yield_item p.2 p.1 MEDIA_TYPE_TEXT = p.2 := by
      intro p; simp [build_yield_item]
    simp only [hb]
    rw [List.enumFrom_map_snd]
    simp [prompt_too_long_error]
  · intro hmt
    rw [hmain, hmt]
    rw [if_pos rfl]
    simp only [yields_append, yields_yieldOut_map, yields_single_yield,
      List.singleton_append]
    have hp : prompt_too_long_error e MEDIA_TYPE_JSON =
        format_stream_data (.obj
          [("event", .str "error"),
           ("data", .obj
             [("status_code", .int 413),
              ("response", .str "Prompt is too long"),
              ("cause", .str e)])]) := by
      simp [prompt_too_long_error, htj.symm]
    rw [hp]
    simp [yields_cons_yield, yields_yieldOut_map]
  · rw [hmain]
    intro s hs
    rcases List.mem_append.mp hs with hab | hes
    · rcases List.mem_append.mp hab with ha | hb
      · by_cases hc : ctx.media_type = MEDIA_TYPE_JSON
        · rw [if_pos hc] at ha
          simp only [List.mem_singleton] at ha
          subst ha; rfl
        · rw [if_neg hc] at ha
          simp at ha
      · rcases List.mem_map.mp hb with ⟨p, _, rfl⟩; rfl
    · simp only [List.mem_singleton] at hes
      subst hes; rfl

/-- C10: when the generator is exhausted without yielding a terminal
structured result — as on the invalid-query path, which yields exactly
one plain fragment — the pipeline still runs the full finalize step:
it persists the turn, calls `consume_tokens` on every ledger with zero
counts (no token counter), and emits an End event with empty referenced
documents and `truncated = false`. -/
theorem C10_exhausted_finalize (ctx : PipelineCtx) (frs : List String) :
    response_processing_wrapper ctx ⟨frs.map GenItem.fragment, .exhausted⟩ =
      (if ctx.media_type = MEDIA_TYPE_JSON then
        [Step.yieldOut (stream_start_event ctx.conversation_id)] else [])
      ++ ((frs.enumFrom 0).map fun p =>
            Step.yieldOut (build_yield_item p.2 p.1 ctx.media_type))
      ++ store_data ctx.user_id ctx.conversation_id (joinFrags frs) ctx.valid
           [] false ctx.transcripts_disabled
      ++ (ctx.quota_limiters.map fun kv => Step.callConsumeTokens kv.1 0 0)
      ++ [Step.callGetAvailableQuotas ctx.user_id]
      ++ [Step.yieldOut (stream_end_event [] false ctx.media_type none
            (get_available_quotas (ledgerConsume 0 0 ctx.quota_limiters)))]
    ∧ response_processing_wrapper ctx invalid_response_generator =
      (if ctx.media_type = MEDIA_TYPE_JSON then
        [Step.yieldOut (stream_start_event ctx.conversation_id)] else [])
      ++ [Step.yieldOut (build_yield_item INVALID_QUERY_RESP 0 ctx.media_type)]
      ++ store_data ctx.user_id ctx.conversation_id INVALID_QUERY_RESP ctx.valid
           [] false ctx.transcripts_disabled
      ++ (ctx.quota_limiters.map fun kv => Step.callConsumeTokens kv.1 0 0)
      ++ [Step.callGetAvailableQuotas ctx.user_id]
      ++ [Step.yieldOut (stream_end_event [] false ctx.media_type none
            (get_available_quotas (ledgerConsume 0 0 ctx.quota_limiters)))] := by
  refine ⟨wrapper_exhausted_eq ctx frs, ?_⟩
  have h := wrapper_exhausted_eq ctx [INVALID_QUERY_RESP]
  simp only [List.map_cons, List.map_nil, List.enumFrom_cons, List.enumFrom_nil,
    joinFrags, String.append_empty] at h
  exact h

theorem yields_nil : yields [] = [] := rfl

theorem mem_yields {s : String} {steps : List Step} :
    s ∈ yields steps ↔ Step.yieldOut s ∈ steps := by
  unfold yields
  rw [List.mem_filterMap]
  constructor
  · rintro ⟨a, ha, hfa⟩
    cases a with
    | yieldOut x =>
      simp only [Option.some.injEq] at hfa
      subst hfa; exact ha
    | callStoreConversationHistory u c r rc => simp at hfa
    | callStoreTranscript u c v r rc ht => simp at hfa
    | callConsumeTokens l i o => simp at hfa
    | callGetAvailableQuotas u => simp at hfa
  · intro h; exact ⟨_, h, rfl⟩

theorem trace_shape (items : List GenItem) :
    (∃ frs : List String, items = frs.map GenItem.fragment) ∨
    (∃ (frs : List String) (sr : SummarizerResponse) (rest : List GenItem),
      items = frs.map GenItem.fragment ++ GenItem.summary sr :: rest) := by
  induction items with
  | nil => exact .inl ⟨[], rfl⟩
  | cons it rest ih =>
    cases it with
    | fragment f =>
      rcases ih with ⟨frs, rfl⟩ | ⟨frs, sr, tail, rfl⟩
      · exact .inl ⟨f :: frs, rfl⟩
      · exact .inr ⟨f :: frs, sr, tail, rfl⟩
    | summary sr => exact .inr ⟨[], sr, rest, rfl⟩

theorem isJsonFrame_format (kvs : List (String × JValue)) :
    IsJsonFrame (format_stream_data (.obj kvs)) := ⟨kvs, rfl⟩

theorem isJsonFrame_start (cid : String) : IsJsonFrame (stream_start_event cid) :=
  isJsonFrame_format _

theorem isJsonFrame_token (item : String) (idx : Nat) :
    IsJsonFrame (build_yield_item item idx MEDIA_TYPE_JSON) := by
  rw [build_yield_item, if_neg (by decide : ¬ (MEDIA_TYPE_JSON = MEDIA_TYPE_TEXT))]
  exact isJsonFrame_format _

theorem isJsonFrame_end (rd : List RefDoc) (t : Bool) (tc : Option TokenCounter)
    (q : List (String × Int)) :
    IsJsonFrame (stream_end_event rd t MEDIA_TYPE_JSON tc q) := by
  rw [stream_end_event, if_pos rfl]
  exact isJsonFrame_format _

theorem isJsonFrame_ptl (e : String) :
    IsJsonFrame (prompt_too_long_error e MEDIA_TYPE_JSON) := by
  rw [prompt_too_long_error, if_neg (by decide : ¬ (MEDIA_TYPE_JSON = MEDIA_TYPE_TEXT))]
  exact isJsonFrame_format _

theorem isJsonFrame_generic (r c : String) :
    IsJsonFrame (generic_llm_error r c MEDIA_TYPE_JSON) := by
  rw [generic_llm_error, if_neg (by decide : ¬ (MEDIA_TYPE_JSON = MEDIA_TYPE_TEXT))]
  exact isJsonFrame_format _

theorem yields_wrapper_summary (ctx : PipelineCtx) (frs : List String)
    (sr : SummarizerResponse) (rest : List GenItem) (oc : GenEnd) :
    yields (response_processing_wrapper ctx
        ⟨frs.map GenItem.fragment ++ GenItem.summary sr :: rest, oc⟩) =
      (if ctx.media_type = MEDIA_TYPE_JSON then
        [stream_start_event ctx.conversation_id] else [])
      ++ ((frs.enumFrom 0).map fun p => build_yield_item p.2 p.1 ctx.media_type)
      ++ [stream_end_event (build_referenced_docs sr.rag_chunks)
            sr.history_truncated ctx.media_type sr.token_counter
            (get_available_quotas (ledgerConsume (calc_input_tokens sr.token_counter)
              (calc_output_tokens sr.token_counter) ctx.quota_limiters))] := by
  rw [wrapper_summary_eq]
  by_cases hc : ctx.media_type = MEDIA_TYPE_JSON <;>
    simp only [hc, if_true, if_false, if_pos, if_neg, yields_append,
      yields_yieldOut_map, yields_store_data, yields_consume_steps,
      yields_single_yield, yields_single_getQuotas, yields_cons_yield, yields_nil,
      List.nil_append, List.append_nil, List.singleton_append]

theorem yields_wrapper_fail (ctx : PipelineCtx) (frs : List String)
    (oc : GenEnd) (es : String) (h : errorEvent oc ctx.media_type = some es) :
    yields (response_processing_wrapper ctx ⟨frs.map GenItem.fragment, oc⟩) =
      (if ctx.media_type = MEDIA_TYPE_JSON then
        [stream_start_event ctx.conversation_id] else [])
      ++ ((frs.enumFrom 0).map fun p => build_yield_item p.2 p.1 ctx.media_type)
      ++ [es] := by
  cases oc with
  | exhausted => simp [errorEvent] at h
  | promptTooLong e =>
    simp only [errorEvent, Option.some.injEq] at h
    subst h
    rw [wrapper_ptl_eq]
    by_cases hc : ctx.media_type = MEDIA_TYPE_JSON <;>
      simp [hc, yields_append, yields_yieldOut_map, yields_single_yield,
        yields_cons_yield, yields_nil]
  | genericError r c =>
    simp only [errorEvent, Option.some.injEq] at h
    subst h
    rw [wrapper_generic_eq]
    by_cases hc : ctx.media_type = MEDIA_TYPE_JSON <;>
      simp [hc, yields_append, yields_yieldOut_map, yields_single_yield,
        yields_cons_yield, yields_nil]

theorem yields_wrapper_exhausted (ctx : PipelineCtx) (frs : List String) :
    yields (response_processing_wrapper ctx ⟨frs.map GenItem.fragment, .exhausted⟩) =
      (if ctx.media_type = MEDIA_TYPE_JSON then
        [stream_start_event ctx.conversation_id] else [])
      ++ ((frs.enumFrom 0).map fun p => build_yield_item p.2 p.1 ctx.media_type)
      ++ [stream_end_event [] false ctx.media_type none
            (get_available_quotas (ledgerConsume 0 0 ctx.quota_limiters))] := by
  rw [wrapper_exhausted_eq]
  by_cases hc : ctx.media_type = MEDIA_TYPE_JSON <;>
    simp only [hc, if_true, if_false, yields_append,
      yields_yieldOut_map, yields_store_data, yields_consume_steps,
      yields_single_yield, yields_single_getQuotas, yields_cons_yield, yields_nil,
      List.nil_append, List.append_nil, List.singleton_append]

/-- C6: a Start event is emitted iff the media type is the structured
(JSON) mode — in text mode the yields of a successful stream are exactly
the raw fragments and the end trailer, with no start frame — and every
structured-mode frame is `data: ` followed by a JSON object followed by
two newline characters. -/
theorem C6_start_iff_structured (ctx : PipelineCtx) (g : GenTrace) :
    (∃ tl, response_processing_wrapper ctx g =
      (if ctx.media_type = MEDIA_TYPE_JSON then
        [Step.yieldOut (stream_start_event ctx.conversation_id)] else []) ++ tl)
    ∧ (ctx.media_type = MEDIA_TYPE_JSON →
        ∀ s ∈ yields (response_processing_wrapper ctx g), IsJsonFrame s)
    ∧ (∀ (frs : List String) (sr : SummarizerResponse) (rest : List GenItem)
        (oc : GenEnd), ctx.media_type = MEDIA_TYPE_TEXT →
        yields (response_processing_wrapper ctx
            ⟨frs.map GenItem.fragment ++ GenItem.summary sr :: rest, oc⟩) =
          frs ++ [stream_end_event (build_referenced_docs sr.rag_chunks)
            sr.history_truncated ctx.media_type sr.token_counter
            (get_available_quotas (ledgerConsume (calc_input_tokens sr.token_counter)
              (calc_output_tokens sr.token_counter) ctx.quota_limiters))]) := by
  refine ⟨?_, ?_, ?_⟩
  · obtain ⟨items, oc⟩ := g
    rcases trace_shape items with ⟨frs, rfl⟩ | ⟨frs, sr, rest, rfl⟩
    · cases oc with
      | exhausted =>
        have h := wrapper_exhausted_eq ctx frs
        simp only [List.append_assoc] at h
        exact ⟨_, h⟩
      | promptTooLong e =>
        have h := wrapper_ptl_eq ctx frs e
        simp only [List.append_assoc] at h
        exact ⟨_, h⟩
      | genericError r c =>
        have h := wrapper_generic_eq ctx frs r c
        simp only [List.append_assoc] at h
        exact ⟨_, h⟩
    · have h := wrapper_summary_eq ctx frs sr rest oc
      simp only [List.append_assoc] at h
      exact ⟨_, h⟩
  · intro hmt s hs
    obtain ⟨items, oc⟩ := g
    rcases trace_shape items with ⟨frs, rfl⟩ | ⟨frs, sr, rest, rfl⟩
    · cases oc with
      | exhausted =>
        rw [yields_wrapper_exhausted, hmt, if_pos rfl] at hs
        simp only [List.mem_append, List.mem_singleton, List.mem_map] at hs
        rcases hs with (rfl | ⟨p, _, rfl⟩) | rfl
        · exact isJsonFrame_start _
        · exact isJsonFrame_token _ _
        · exact isJsonFrame_end _ _ _ _
      | promptTooLong e =>
        rw [yields_wrapper_fail ctx frs _ _ (by rw [hmt]; rfl), hmt, if_pos rfl] at hs
        simp only [List.mem_append, List.mem_singleton, List.mem_map] at hs
        rcases hs with (rfl | ⟨p, _, rfl⟩) | rfl
        · exact isJsonFrame_start _
        · exact isJsonFrame_token _ _
        · exact isJsonFrame_ptl _
      | genericError r c =>
        rw [yields_wrapper_fail ctx frs _ _ (by rw [hmt]; rfl), hmt, if_pos rfl] at hs
        simp only [List.mem_append, List.mem_singleton, List.mem_map] at hs
        rcases hs with (rfl | ⟨p, _, rfl⟩) | rfl
        · exact isJsonFrame_start _
        · exact isJsonFrame_token _ _
        · exact isJsonFrame_generic _ _
    · rw [yields_wrapper_summary, hmt, if_pos rfl] at hs
      simp only [List.mem_append, List.mem_singleton, List.mem_map] at hs
      rcases hs with (rfl | ⟨p, _, rfl⟩) | rfl
      · exact isJsonFrame_start _
      · exact isJsonFrame_token _ _
      · exact isJsonFrame_end _ _ _ _
  · intro frs sr rest oc hmt
    rw [yields_wrapper_summary, hmt,
      if_neg (by decide : ¬ (MEDIA_TYPE_TEXT = MEDIA_TYPE_JSON))]
    simp only [List.nil_append]
    congr 1
    have hb : ∀ p : Nat × String,
        build_yield_item p.2 p.1 MEDIA_TYPE_TEXT = p.2 := by
      intro p; simp [build_yield_item]
    simp only [hb]
    exact List.enumFrom_map_snd 0 frs

theorem intercalate_go_length (s : String) (acc : String) (as : List String) :
    acc.length ≤ (String.intercalate.go acc s as).length := by
  induction as generalizing acc with
  | nil => simp [String.intercalate.go]
  | cons a as ih =>
    calc acc.length ≤ (acc ++ s ++ a).length := by
          simp [String.length_append]; omega
      _ ≤ (String.intercalate.go (acc ++ s ++ a) s as).length := by
          have h := ih (acc ++ s ++ a)
          simpa [String.intercalate.go] using h

theorem string_ne_empty_of_length (s : String) (h : 0 < s.length) : s ≠ "" := by
  intro he; rw [he] at h; simp at h

theorem refDocs_string_ne_empty (d : RefDoc) (docs : List RefDoc) :
    String.intercalate "\n"
      ((d :: docs).map fun item => item.doc_title ++ ": " ++ item.doc_url) ≠ "" := by
  apply string_ne_empty_of_length
  have h1 := intercalate_go_length "\n" (d.doc_title ++ ": " ++ d.doc_url)
    (docs.map fun item => item.doc_title ++ ": " ++ item.doc_url)
  have h2 : 0 < (d.doc_title ++ ": " ++ d.doc_url).length := by
    rw [String.length_append, String.length_append]
    have hc : (": " : String).length = 2 := rfl
    omega
  rw [List.map_cons, String.intercalate]
  omega

/-- C7: in text mode each Token encodes to its raw fragment with no
framing; the End event encodes to the empty string when no referenced
document exists and to the separator plus the newline-joined
`title: url` list when at least one exists; hence a three-fragment
stream with no RAG chunks delivers exactly the three fragments and
nothing else. -/
theorem C7_text_mode_encoding (ctx : PipelineCtx) :
    (∀ (item : String) (idx : Nat), build_yield_item item idx MEDIA_TYPE_TEXT = item)
    ∧ (∀ (truncated : Bool) (tc : Option TokenCounter) (q : List (String × Int)),
        stream_end_event [] truncated MEDIA_TYPE_TEXT tc q = "")
    ∧ (∀ (d : RefDoc) (docs : List RefDoc) (truncated : Bool)
        (tc : Option TokenCounter) (q : List (String × Int)),
        stream_end_event (d :: docs) truncated MEDIA_TYPE_TEXT tc q =
          "\n\n---\n\n" ++ String.intercalate "\n"
            ((d :: docs).map fun item => item.doc_title ++ ": " ++ item.doc_url))
    ∧ (∀ (tc : Option TokenCounter) (oc : GenEnd) (rest : List GenItem),
        ctx.media_type = MEDIA_TYPE_TEXT →
        yields (response_processing_wrapper ctx
            ⟨[GenItem.fragment "Hel", GenItem.fragment "lo ", GenItem.fragment "world",
              GenItem.summary ⟨[], false, tc⟩] ++ rest, oc⟩) =
          ["Hel", "lo ", "world", ""])
    ∧ joinFrags ["Hel", "lo ", "world", ""] = "Hello world" := by
  have htj : ¬ (MEDIA_TYPE_TEXT = MEDIA_TYPE_JSON) := by decide
  refine ⟨?_, ?_, ?_, ?_, by decide⟩
  · intro item idx
    simp [build_yield_item]
  · intro truncated tc q
    rw [stream_end_event, if_neg htj]
    decide
  · intro d docs truncated tc q
    have hne := refDocs_string_ne_empty d docs
    rw [List.map_cons] at hne
    rw [stream_end_event, if_neg htj]
    simp [hne]
  · intro tc oc rest hmt
    show yields (response_processing_wrapper ctx
        ⟨(["Hel", "lo ", "world"].map GenItem.fragment)
          ++ GenItem.summary ⟨[], false, tc⟩ :: rest, oc⟩) = _
    rw [yields_wrapper_summary, hmt, if_neg htj]
    simp [build_yield_item, build_referenced_docs, dedupFirst, stream_end_event,
      htj, List.enumFrom, String.intercalate]


instance : IsTotal CacheRow fun a b => a.updated_at ≤ b.updated_at :=
  ⟨fun a b => Nat.le_total a.updated_at b.updated_at⟩

instance : IsTrans CacheRow fun a b => a.updated_at ≤ b.updated_at :=
  ⟨fun _ _ _ => Nat.le_trans⟩

theorem sortByTs_perm (l : List CacheRow) : (sortByTs l).Perm l :=
  List.perm_insertionSort _ l

theorem sortByTs_sorted (l : List CacheRow) :
    List.Sorted (fun a b => a.updated_at ≤ b.updated_at) (sortByTs l) :=
  List.sorted_insertionSort _ l

theorem lookupHistory_none_iff (st : CacheState) (u c : String) :
    lookupHistory st u c = none ↔ ∀ r ∈ st.rows, keyOf r ≠ (u, c) := by
  unfold lookupHistory
  rw [Option.map_eq_none', List.find?_eq_none]
  constructor
  · intro h r hr
    have h2 := h r hr
    simp only [decide_eq_true_eq] at h2
    rw [keyOf, ne_eq, Prod.mk.injEq]
    exact h2
  · intro h r hr
    have h2 := h r hr
    rw [keyOf, ne_eq, Prod.mk.injEq] at h2
    simp only [decide_eq_true_eq]
    exact h2

theorem keysNodup_insertRow (st : CacheState) (u c : String) (e : List CacheEntry)
    (now : Nat) (hnd : KeysNodup st) (hnew : lookupHistory st u c = none) :
    KeysNodup (insertRow st u c e now) := by
  unfold KeysNodup at hnd ⊢
  unfold insertRow
  rw [List.map_append, List.nodup_append]
  refine ⟨hnd, by simp, ?_⟩
  intro k hk
  simp only [List.mem_map] at hk
  obtain ⟨r, hr, rfl⟩ := hk
  have hne := (lookupHistory_none_iff st u c).mp hnew r hr
  simp only [List.map_cons, List.map_nil, List.mem_cons, List.not_mem_nil, or_false]
  intro hcon
  apply hne
  rw [hcon]
  rfl

theorem rows_inj_of_keysNodup (st : CacheState) (hnd : KeysNodup st)
    (r1 : CacheRow) (h1 : r1 ∈ st.rows) (r2 : CacheRow) (h2 : r2 ∈ st.rows)
    (hk : keyOf r1 = keyOf r2) : r1 = r2 :=
  List.inj_on_of_nodup_map hnd h1 h2 hk

theorem deleteOldest_spec (st : CacheState) (n : Nat) (hnd : KeysNodup st) :
    (deleteOldest st n).rows.length = st.rows.length - n
    ∧ (∀ r ∈ st.rows, r ∉ (deleteOldest st n).rows →
        ∀ k ∈ (deleteOldest st n).rows, r.updated_at ≤ k.updated_at)
    ∧ (∀ k ∈ (deleteOldest st n).rows, k ∈ st.rows) := by
  have hperm : (sortByTs st.rows).Perm st.rows := sortByTs_perm st.rows
  have hsorted := sortByTs_sorted st.rows
  have hrowsnd : st.rows.Nodup := List.Nodup.of_map _ hnd
  have hsortnd : (sortByTs st.rows).Nodup := hperm.symm.nodup hrowsnd
  set victims := ((sortByTs st.rows).take n).map keyOf with hvic
  set p : CacheRow → Bool := fun r => decide (keyOf r ∉ victims) with hp
  have hkept : (deleteOldest st n).rows = st.rows.filter p := rfl
  -- a row of the take-part has its key among the victims
  have htake_vic : ∀ v ∈ (sortByTs st.rows).take n, keyOf v ∈ victims := by
    intro v hv
    exact List.mem_map_of_mem keyOf hv
  -- a row whose key is a victim is one of the take-part rows
  have hvic_take : ∀ r ∈ st.rows, keyOf r ∈ victims →
      r ∈ (sortByTs st.rows).take n := by
    intro r hr hkr
    rw [hvic] at hkr
    obtain ⟨v, hv, hveq⟩ := List.mem_map.mp hkr
    have hvrows : v ∈ st.rows :=
      hperm.subset ((List.take_sublist n _).subset hv)
    have : v = r := rows_inj_of_keysNodup st hnd v hvrows r hr hveq
    rw [← this]
    exact hv
  -- rows of the drop-part are kept
  have hdrop_kept : ∀ k ∈ (sortByTs st.rows).drop n, p k = true := by
    intro k hk
    rw [hp]
    simp only [decide_eq_true_eq]
    intro hkk
    have hkrows : k ∈ st.rows :=
      hperm.subset ((List.drop_sublist n _).subset hk)
    have hktake := hvic_take k hkrows hkk
    exact (List.disjoint_take_drop hsortnd (le_refl n)) hktake hk
  refine ⟨?_, ?_, ?_⟩
  · rw [hkept, ← List.countP_eq_length_filter,
      hperm.symm.countP_eq p, ← List.take_append_drop n (sortByTs st.rows),
      List.countP_append]
    have h0 : List.countP p ((sortByTs st.rows).take n) = 0 := by
      rw [List.countP_eq_zero]
      intro v hv
      rw [hp]
      simp only [decide_eq_true_eq, not_not]
      exact htake_vic v hv
    have hlen : List.countP p ((sortByTs st.rows).drop n) =
        ((sortByTs st.rows).drop n).length :=
      List.countP_eq_length.mpr hdrop_kept
    rw [h0, hlen, List.length_drop, hperm.length_eq]
    omega
  · intro r hr hrnot k hk
    rw [hkept] at hrnot hk
    have hrp : p r = false := by
      cases hpr : p r with
      | false => rfl
      | true => exact absurd (List.mem_filter.mpr ⟨hr, hpr⟩) hrnot
    have hrvic : keyOf r ∈ victims := by
      rw [hp] at hrp
      simpa using hrp
    have hrtake := hvic_take r hr hrvic
    have hkrows := (List.mem_filter.mp hk).1
    have hkp := (List.mem_filter.mp hk).2
    have hkvic : keyOf k ∉ victims := by
      rw [hp] at hkp
      simpa using hkp
    have hksort : k ∈ sortByTs st.rows := hperm.mem_iff.mpr hkrows
    have hkdrop : k ∈ (sortByTs st.rows).drop n := by
      rcases (List.mem_append.mp
        (by rw [List.take_append_drop]; exact hksort :
          k ∈ (sortByTs st.rows).take n ++ (sortByTs st.rows).drop n)) with h | h
      · exact absurd (htake_vic k h) hkvic
      · exact h
    have hcross := List.pairwise_append.mp
      (by rw [List.take_append_drop]; exact hsorted :
        List.Pairwise (fun a b => a.updated_at ≤ b.updated_at)
          ((sortByTs st.rows).take n ++ (sortByTs st.rows).drop n))
    exact hcross.2.2 r hrtake k hkdrop
  · intro k hk
    rw [hkept] at hk
    exact (List.mem_filter.mp hk).1

theorem stmtFails_none (i : Nat) : stmtFails none i = none := rfl

/-- C2: for every cache state with distinct primary keys and every
`insert_or_append` call that creates a new key and completes without a
storage fault, the resulting number of entries does not exceed the
configured capacity, the rows removed to restore the bound carry
timestamps no newer than any surviving row (globally oldest-updated
first), and nothing else is removed. -/
theorem C2_capacity_invariant (capacity now : Nat) (st : CacheState)
    (u c : String) (e : CacheEntry)
    (hnew : lookupHistory st u c = none) (hnd : KeysNodup st) :
    ∃ st', PostgresCache_insert_or_append none capacity now st u c e =
        CacheOutcome.ok () st'
      ∧ st'.rows.length ≤ capacity
      ∧ (∀ r ∈ (insertRow st u c [e] now).rows, r ∉ st'.rows →
          ∀ k ∈ st'.rows, r.updated_at ≤ k.updated_at)
      ∧ (∀ k ∈ st'.rows, k ∈ (insertRow st u c [e] now).rows) := by
  have hnd1 : KeysNodup (insertRow st u c [e] now) :=
    keysNodup_insertRow st u c [e] now hnd hnew
  have hlen1 : (insertRow st u c [e] now).rows.length = st.rows.length + 1 := by
    simp [insertRow]
  by_cases hover : (insertRow st u c [e] now).rows.length - capacity > 0
  · obtain ⟨hdl, hold, hsub⟩ := deleteOldest_spec (insertRow st u c [e] now)
      ((insertRow st u c [e] now).rows.length - capacity) hnd1
    refine ⟨deleteOldest (insertRow st u c [e] now)
      ((insertRow st u c [e] now).rows.length - capacity), ?_, ?_, hold, hsub⟩
    · unfold PostgresCache_insert_or_append
      simp [stmtFails_none, hnew, hover]
    · rw [hdl]; omega
  · refine ⟨insertRow st u c [e] now, ?_, ?_, ?_, fun k hk => hk⟩
    · unfold PostgresCache_insert_or_append
      simp [stmtFails_none, hnew, hover]
    · omega
    · intro r hr hrnot k _
      exact absurd hr hrnot

theorem find?_update_rows (rows : List CacheRow) (u c : String)
    (v : List CacheEntry) (now : Nat)
    (h : (rows.find? fun r => decide (r.user_id = u ∧ r.conversation_id = c)).isSome) :
    ((rows.map fun r =>
        if r.user_id = u ∧ r.conversation_id = c then
          { r with value := v, updated_at := now }
        else r).find? fun r => decide (r.user_id = u ∧ r.conversation_id = c)) =
      some ⟨u, c, v, now⟩ := by
  induction rows with
  | nil => simp at h
  | cons r rest ih =>
    by_cases hc : r.user_id = u ∧ r.conversation_id = c
    · simp only [List.map_cons, if_pos hc]
      rw [List.find?_cons_of_pos]
      · obtain ⟨h1, h2⟩ := hc
        simp [h1, h2]
      · simp [hc.1, hc.2]
    · simp only [List.map_cons, if_neg hc]
      rw [List.find?_cons_of_neg _ (by simpa using hc)]
      apply ih
      rw [List.find?_cons_of_neg _ (by simpa using hc)] at h
      exact h

theorem lookup_updateRow (st : CacheState) (u c : String) (v : List CacheEntry)
    (now : Nat) (h : (lookupHistory st u c).isSome) :
    lookupHistory (updateRow st u c v now) u c = some v := by
  unfold lookupHistory at h ⊢
  rw [Option.isSome_map'] at h
  rw [show (updateRow st u c v now).rows = st.rows.map fun r =>
    if r.user_id = u ∧ r.conversation_id = c then
      { r with value := v, updated_at := now }
    else r from rfl]
  rw [find?_update_rows st.rows u c v now h]
  rfl

theorem updateRow_length (st : CacheState) (u c : String) (v : List CacheEntry)
    (now : Nat) : (updateRow st u c v now).rows.length = st.rows.length := by
  simp [updateRow]

theorem lookup_insertRow (st : CacheState) (u c : String) (e : List CacheEntry)
    (now : Nat) (h : lookupHistory st u c = none) :
    lookupHistory (insertRow st u c e now) u c = some e := by
  unfold lookupHistory at h ⊢
  rw [Option.map_eq_none'] at h
  rw [show (insertRow st u c e now).rows = st.rows ++ [⟨u, c, e, now⟩] from rfl]
  rw [List.find?_append, h]
  rw [List.find?_cons_of_pos _ (by simp)]
  rfl

/-- C5: `insert_or_append` appends the turn at the end of an existing
non-empty history (leaving the entry count untouched, so capacity
enforcement never runs on the append path), creates a single-element
history when the key is absent (the path that runs capacity
enforcement), and two successive calls with the same fresh key yield
the 2-element history in call order. -/
theorem C5_append_vs_create (capacity now : Nat) (st : CacheState)
    (u c : String) (e : CacheEntry) :
    (∀ h : List CacheEntry, lookupHistory st u c = some h → h ≠ [] →
      PostgresCache_insert_or_append none capacity now st u c e =
        CacheOutcome.ok () (updateRow st u c (h ++ [e]) now)
      ∧ lookupHistory (updateRow st u c (h ++ [e]) now) u c = some (h ++ [e])
      ∧ (updateRow st u c (h ++ [e]) now).rows.length = st.rows.length)
    ∧ (lookupHistory st u c = none → st.rows.length + 1 ≤ capacity →
      PostgresCache_insert_or_append none capacity now st u c e =
        CacheOutcome.ok () (insertRow st u c [e] now)
      ∧ lookupHistory (insertRow st u c [e] now) u c = some [e])
    ∧ (∀ (e2 : CacheEntry) (now2 : Nat),
      lookupHistory st u c = none → st.rows.length + 1 ≤ capacity →
      ∃ st1 st2,
        PostgresCache_insert_or_append none capacity now st u c e =
          CacheOutcome.ok () st1
        ∧ PostgresCache_insert_or_append none capacity now2 st1 u c e2 =
          CacheOutcome.ok () st2
        ∧ lookupHistory st2 u c = some [e, e2]) := by
  refine ⟨?_, ?_, ?_⟩
  · intro h hl hne
    refine ⟨?_, ?_, updateRow_length st u c (h ++ [e]) now⟩
    · unfold PostgresCache_insert_or_append
      simp [stmtFails_none, hl, hne]
    · exact lookup_updateRow st u c (h ++ [e]) now (by rw [hl]; rfl)
  · intro hnone hcap
    have hnotover : ¬ ((insertRow st u c [e] now).rows.length - capacity > 0) := by
      simp only [insertRow, List.length_append, List.length_cons, List.length_nil]
      omega
    refine ⟨?_, lookup_insertRow st u c [e] now hnone⟩
    unfold PostgresCache_insert_or_append
    simp [stmtFails_none, hnone, hnotover]
  · intro e2 now2 hnone hcap
    have hnotover : ¬ ((insertRow st u c [e] now).rows.length - capacity > 0) := by
      simp only [insertRow, List.length_append, List.length_cons, List.length_nil]
      omega
    have hl1 : lookupHistory (insertRow st u c [e] now) u c = some [e] :=
      lookup_insertRow st u c [e] now hnone
    refine ⟨insertRow st u c [e] now,
      updateRow (insertRow st u c [e] now) u c [e, e2] now2, ?_, ?_, ?_⟩
    · unfold PostgresCache_insert_or_append
      simp [stmtFails_none, hnone, hnotover]
    · unfold PostgresCache_insert_or_append
      simp [stmtFails_none, hl1]
    · exact lookup_updateRow (insertRow st u c [e] now) u c [e, e2] now2
        (by rw [hl1]; rfl)

/-- C4: under every storage-fault scenario, `get` and
`insert_or_append` either return normally or raise a `CacheError`
annotated with the failing operation name (`PostgresCache.get` /
`PostgresCache.insert_or_append`); and a fault raising `msg` on the
first statement surfaces as a `CacheError` wrapping exactly that
cause. -/
theorem C4_storage_fault_wrapped (fault : DbFault) (capacity now : Nat)
    (st : CacheState) (u c : String) (e : CacheEntry) :
    ((∃ v st', PostgresCache_get fault st u c = CacheOutcome.ok v st') ∨
      (∃ cause st', PostgresCache_get fault st u c =
        CacheOutcome.cacheError "PostgresCache.get" cause st'))
    ∧ ((∃ st', PostgresCache_insert_or_append fault capacity now st u c e =
          CacheOutcome.ok () st') ∨
        (∃ cause st', PostgresCache_insert_or_append fault capacity now st u c e =
          CacheOutcome.cacheError "PostgresCache.insert_or_append" cause st'))
    ∧ (∀ msg, PostgresCache_get (some (0, msg)) st u c =
        CacheOutcome.cacheError "PostgresCache.get" msg st)
    ∧ (∀ msg, PostgresCache_insert_or_append (some (0, msg)) capacity now st u c e =
        CacheOutcome.cacheError "PostgresCache.insert_or_append" msg st) := by
  refine ⟨?_, ?_, ?_, ?_⟩
  · cases h0 : stmtFails fault 0 with
    | some msg =>
      exact .inr ⟨msg, st, by unfold PostgresCache_get; simp [h0]⟩
    | none =>
      cases hl : lookupHistory st u c with
      | some v => exact .inl ⟨v, st, by unfold PostgresCache_get; simp [h0, hl]⟩
      | none => exact .inl ⟨[], st, by unfold PostgresCache_get; simp [h0, hl]⟩
  · cases h0 : stmtFails fault 0 with
    | some msg =>
      exact .inr ⟨msg, st, by unfold PostgresCache_insert_or_append; simp [h0]⟩
    | none =>
      cases hl : lookupHistory st u c with
      | some old =>
        by_cases he : old = []
        · cases h1 : stmtFails fault 1 with
          | some msg =>
            exact .inr ⟨msg, st, by
              unfold PostgresCache_insert_or_append; simp [h0, hl, he, h1]⟩
          | none =>
            exact .inr ⟨dupKeyMsg, st, by
              unfold PostgresCache_insert_or_append; simp [h0, hl, he, h1]⟩
        · cases h1 : stmtFails fault 1 with
          | some msg =>
            exact .inr ⟨msg, st, by
              unfold PostgresCache_insert_or_append; simp [h0, hl, he, h1]⟩
          | none =>
            exact .inl ⟨updateRow st u c (old ++ [e]) now, by
              unfold PostgresCache_insert_or_append; simp [h0, hl, he, h1]⟩
      | none =>
        cases h1 : stmtFails fault 1 with
        | some msg =>
          exact .inr ⟨msg, st, by
            unfold PostgresCache_insert_or_append; simp [h0, hl, h1]⟩
        | none =>
          cases h2 : stmtFails fault 2 with
          | some msg =>
            exact .inr ⟨msg, insertRow st u c [e] now, by
              unfold PostgresCache_insert_or_append; simp [h0, hl, h1, h2]⟩
          | none =>
            by_cases hover : (insertRow st u c [e] now).rows.length - capacity > 0
            · cases h3 : stmtFails fault 3 with
              | some msg =>
                exact .inr ⟨msg, insertRow st u c [e] now, by
                  unfold PostgresCache_insert_or_append
                  simp [h0, hl, h1, h2, h3, hover]⟩
              | none =>
                exact .inl ⟨deleteOldest (insertRow st u c [e] now)
                    ((insertRow st u c [e] now).rows.length - capacity), by
                  unfold PostgresCache_insert_or_append
                  simp [h0, hl, h1, h2, h3, hover]⟩
            · exact .inl ⟨insertRow st u c [e] now, by
                unfold PostgresCache_insert_or_append
                simp [h0, hl, h1, h2, hover]⟩
  · intro msg
    unfold PostgresCache_get
    rfl
  · intro msg
    unfold PostgresCache_insert_or_append
    rfl


/-! ## Concrete witnesses -/

/-- A concrete structured-mode request context. -/
def ctxJson : PipelineCtx :=
  ⟨"user-1", "conv-1", MEDIA_TYPE_JSON, [("cluster", 500)], true, false⟩

/-- A concrete text-mode request context. -/
def ctxText : PipelineCtx :=
  ⟨"user-1", "conv-1", MEDIA_TYPE_TEXT, [("cluster", 500)], true, false⟩

/-- A concrete terminal summarizer result. -/
def srW : SummarizerResponse :=
  ⟨[⟨"Docs", "http://x", "chunk text"⟩], false, some ⟨3, 4⟩⟩

/-- A concrete generator trace: two fragments, then the terminal result. -/
def gW : GenTrace :=
  ⟨[.fragment "Hel", .fragment "lo", .summary srW], .exhausted⟩

/-- A concrete cache state holding one row. -/
def stW : CacheState := ⟨[⟨"u0", "c0", [⟨"q0", "r0"⟩], 50⟩]⟩

/-- Witness for C1 at a concrete two-fragment structured stream. -/
theorem C1_token_indices_witness :
    ctxJson.media_type = MEDIA_TYPE_JSON ∧
    (yields (response_processing_wrapper ctxJson
        ⟨["Hel", "lo"].map GenItem.fragment ++ GenItem.summary srW :: [],
          .exhausted⟩) =
      stream_start_event ctxJson.conversation_id ::
        (((["Hel", "lo"].enumFrom 0).map fun p =>
            build_yield_item p.2 p.1 ctxJson.media_type)
          ++ [stream_end_event (build_referenced_docs srW.rag_chunks)
                srW.history_truncated ctxJson.media_type srW.token_counter
                (get_available_quotas (ledgerConsume
                  (calc_input_tokens srW.token_counter)
                  (calc_output_tokens srW.token_counter) ctxJson.quota_limiters))])
      ∧ (["Hel", "lo"].enumFrom 0).map Prod.fst =
          List.range (["Hel", "lo"].length)) :=
  ⟨rfl, C1_token_indices ctxJson ["Hel", "lo"] srW [] .exhausted rfl⟩

/-- Witness for C2: a one-row cache at capacity 1 receives a fresh key. -/
theorem C2_capacity_invariant_witness :
    lookupHistory stW "u1" "c1" = none ∧ KeysNodup stW ∧
    (∃ st', PostgresCache_insert_or_append none 1 100 stW "u1" "c1" ⟨"q", "r"⟩ =
        CacheOutcome.ok () st'
      ∧ st'.rows.length ≤ 1
      ∧ (∀ r ∈ (insertRow stW "u1" "c1" [⟨"q", "r"⟩] 100).rows, r ∉ st'.rows →
          ∀ k ∈ st'.rows, r.updated_at ≤ k.updated_at)
      ∧ (∀ k ∈ st'.rows, k ∈ (insertRow stW "u1" "c1" [⟨"q", "r"⟩] 100).rows)) :=
  ⟨by decide, by decide,
    C2_capacity_invariant 1 100 stW "u1" "c1" ⟨"q", "r"⟩ (by decide) (by decide)⟩

/-- Witness for C3 at a concrete one-fragment text stream failing with a
prompt-too-long error. -/
theorem C3_error_single_terminal_witness :
    errorEvent (GenEnd.promptTooLong "input too long") ctxText.media_type =
      some (prompt_too_long_error "input too long" ctxText.media_type) ∧
    (response_processing_wrapper ctxText
        ⟨["A"].map GenItem.fragment, .promptTooLong "input too long"⟩ =
      (if ctxText.media_type = MEDIA_TYPE_JSON then
        [Step.yieldOut (stream_start_event ctxText.conversation_id)] else [])
      ++ ((["A"].enumFrom 0).map fun p =>
            Step.yieldOut (build_yield_item p.2 p.1 ctxText.media_type))
      ++ [Step.yieldOut (prompt_too_long_error "input too long" ctxText.media_type)]
      ∧ ∀ s ∈ response_processing_wrapper ctxText
            ⟨["A"].map GenItem.fragment, .promptTooLong "input too long"⟩,
          isYield s = true) :=
  ⟨rfl, C3_error_single_terminal ctxText ["A"] (.promptTooLong "input too long")
    (prompt_too_long_error "input too long" ctxText.media_type) rfl⟩

/-- Witness for C5: append to an existing one-turn history at a concrete
state. -/
theorem C5_append_vs_create_witness :
    lookupHistory stW "u0" "c0" = some [⟨"q0", "r0"⟩] ∧
    ([⟨"q0", "r0"⟩] : List CacheEntry) ≠ [] ∧
    (PostgresCache_insert_or_append none 10 100 stW "u0" "c0" ⟨"q1", "r1"⟩ =
        CacheOutcome.ok ()
          (updateRow stW "u0" "c0" ([⟨"q0", "r0"⟩] ++ [⟨"q1", "r1"⟩]) 100)
      ∧ lookupHistory
          (updateRow stW "u0" "c0" ([⟨"q0", "r0"⟩] ++ [⟨"q1", "r1"⟩]) 100)
          "u0" "c0" = some ([⟨"q0", "r0"⟩] ++ [⟨"q1", "r1"⟩])
      ∧ (updateRow stW "u0" "c0" ([⟨"q0", "r0"⟩] ++ [⟨"q1", "r1"⟩]) 100).rows.length
          = stW.rows.length) :=
  ⟨by decide, by decide,
    (C5_append_vs_create 10 100 stW "u0" "c0" ⟨"q1", "r1"⟩).1
      [⟨"q0", "r0"⟩] (by decide) (by decide)⟩

/-- Witness for C6: every frame of a concrete structured-mode stream is a
JSON frame. -/
theorem C6_start_iff_structured_witness :
    ctxJson.media_type = MEDIA_TYPE_JSON ∧
    ∀ s ∈ yields (response_processing_wrapper ctxJson gW), IsJsonFrame s :=
  ⟨rfl, (C6_start_iff_structured ctxJson gW).2.1 rfl⟩

/-- Witness for C7: the three-fragment text-mode scenario delivers
exactly the fragments. -/
theorem C7_text_mode_encoding_witness :
    ctxText.media_type = MEDIA_TYPE_TEXT ∧
    yields (response_processing_wrapper ctxText
        ⟨[GenItem.fragment "Hel", GenItem.fragment "lo ", GenItem.fragment "world",
          GenItem.summary ⟨[], false, none⟩] ++ [], .exhausted⟩) =
      ["Hel", "lo ", "world", ""] :=
  ⟨rfl, (C7_text_mode_encoding ctxText).2.2.2.1 none .exhausted [] rfl⟩

/-- Witness for C9 at a concrete one-fragment text stream. -/
theorem C9_prompt_too_long_witness :
    ctxText.media_type = MEDIA_TYPE_TEXT ∧
    yields (response_processing_wrapper ctxText
        ⟨["A"].map GenItem.fragment, .promptTooLong "too long"⟩) =
      ["A"] ++ ["Prompt is too long: " ++ "too long"] :=
  ⟨rfl, (C9_prompt_too_long ctxText ["A"] "too long").1 rfl⟩

end OLS
